import Mathlib

/-!
Verification development for the pc_watcher event capture and detection
pipeline.  The definitions below are a shallow embedding of the Rust
sources (src/event_hook.rs, src/notification.rs, src/process_info.rs,
src/logger.rs).  OS calls are abstracted as explicit function-valued
environments; machine integers are modelled as Nat (u32/u64, whose values
stay far below 2^32/2^64 here) and Int (i64 millisecond timestamps);
strings are Lean Strings (the sources only ever compare ASCII text).
-/

namespace PcWatcher

/-! ## Data model (event_hook.rs, process_info.rs, logger.rs) -/

/-- EventType from event_hook.rs: the seven window event kinds. -/
inductive EventType where
  | Foreground
  | Created
  | Shown
  | Focus
  | Minimized
  | Restored
  | ZOrderChanged
deriving DecidableEq, Repr

/-- EventType::as_str from event_hook.rs: the rendering-agnostic label. -/
def EventType.as_str : EventType → String
  | .Foreground => "FOCUS"
  | .Created => "CREATED"
  | .Shown => "SHOWN"
  | .Focus => "FOCUS"
  | .Minimized => "MINIMIZED"
  | .Restored => "RESTORED"
  | .ZOrderChanged => "Z-ORDER"

/-- WindowEvent from event_hook.rs.  The source stores a chrono
DateTime and converts it with timestamp_millis() (an i64) in the worker;
we model the timestamp directly as the i64 millisecond value. -/
structure WindowEvent where
  event_type : EventType
  hwnd : Int
  timestamp : Int
deriving DecidableEq, Repr

/-- ProcessInfo from process_info.rs.  Field defaults mirror the derived
Rust Default (empty strings, zero ids, None command line). -/
structure ProcessInfo where
  process_name : String := ""
  process_id : Nat := 0
  process_path : String := ""
  window_title : String := ""
  window_class : String := ""
  command_line : Option String := none
  parent_process_name : String := ""
  parent_process_id : Nat := 0
  parent_process_path : String := ""
  grandparent_process_name : String := ""
  grandparent_process_id : Nat := 0
  grandparent_process_path : String := ""
  greatgrandparent_process_name : String := ""
  greatgrandparent_process_id : Nat := 0
  greatgrandparent_process_path : String := ""
deriving DecidableEq, Repr

/-- LogEntry from logger.rs (the fields the event worker fills in). -/
structure LogEntry where
  timestamp : Int
  event_type : String
  process_name : String
  process_id : Nat
  process_path : String
  window_title : String
  window_class : String
  command_line : Option String
  parent_process_name : String
  parent_process_id : Nat
  parent_process_path : String
  grandparent_process_name : String
  grandparent_process_id : Nat
  grandparent_process_path : String
  greatgrandparent_process_name : String
  greatgrandparent_process_id : Nat
  greatgrandparent_process_path : String
deriving DecidableEq, Repr

/-! ## Suspicious process names (notification.rs) -/

/-- Substring test on strings, modelling Rust str::contains for plain
string patterns: some suffix of `s` starts with `pat`. -/
def strContains (s pat : String) : Bool :=
  s.data.tails.any fun t => pat.data.isPrefixOf t

/-- ASCII lower-casing, modelling Rust String::to_lowercase on the ASCII
names compared by this program. -/
def toLowercase (s : String) : String :=
  String.mk (s.data.map Char.toLower)

/-- SUSPICIOUS_PROCESSES from notification.rs. -/
def SUSPICIOUS_PROCESSES : List String :=
  ["powershell", "pwsh", "cmd", "wscript", "cscript", "mshta", "rundll32", "regsvr32"]

/-- is_suspicious_process from notification.rs. -/
def is_suspicious_process (process_name : String) : Bool :=
  let name_lower := toLowercase process_name
  SUSPICIOUS_PROCESSES.any fun p => strContains name_lower p

/-! ## Click recency (event_hook.rs) -/

/-- CLICK_WINDOW_MS from event_hook.rs. -/
def CLICK_WINDOW_MS : Nat := 500

/-- was_recent_mouse_click from event_hook.rs.  `last_click` is the
LAST_MOUSE_CLICK_MS atomic (initially 0), `now` the current wall clock in
ms; `now.saturating_sub(last_click)` is Nat subtraction. -/
def was_recent_mouse_click (last_click now : Nat) : Bool :=
  decide (now - last_click < CLICK_WINDOW_MS)

/-! ## Event worker (event_hook.rs, event_worker) -/

/-- One remembered dedup entry: (hwnd, event_type, timestamp_ms), as in
the worker's `last_events : Vec<(isize, EventType, i64)>`. -/
abbrev DedupEntry := Int × EventType × Int

/-- The worker's duplicate check: same window + event kind within 100 ms. -/
def isDuplicate (last_events : List DedupEntry) (e : WindowEvent) : Bool :=
  last_events.any fun p =>
    decide (p.1 = e.hwnd) && decide (p.2.1 = e.event_type) &&
      decide ((e.timestamp - p.2.2).natAbs < 100)

/-- The worker's bookkeeping after accepting an event: push the entry,
then drop the oldest if more than 10 are retained. -/
def pushEvent (last_events : List DedupEntry) (e : WindowEvent) : List DedupEntry :=
  let l := last_events ++ [(e.hwnd, e.event_type, e.timestamp)]
  if l.length > 10 then l.drop 1 else l

/-- dominated_event from the worker: alert-relevant kinds
(Foreground, Shown, Created). -/
def dominated_event : EventType → Bool
  | .Foreground | .Shown | .Created => true
  | _ => false

/-- The worker's allow-list for the focus-without-click heuristic (own
process names, the shell, and the monitor/taskbar window classes). -/
def is_ignored (pi : ProcessInfo) : Bool :=
  let proc_lower := toLowercase pi.process_name
  decide (proc_lower = "pc_watcher") || decide (proc_lower = "pc_watcher.exe") ||
  decide (proc_lower = "explorer") || decide (proc_lower = "explorer.exe") ||
  decide (pi.window_class = "Shell_TrayWnd") || decide (pi.window_class = "Progman") ||
  decide (pi.window_class = "PCWatcherAlert") || decide (pi.window_class = "PCWatcherDetails") ||
  decide (pi.window_class = "PCWatcherTray")

/-- An alert dispatched by the worker (set_alert label and path). -/
inductive Alert where
  | suspicious (label path : String)
  | focusNoClick (label path : String)
deriving DecidableEq, Repr

/-- The worker's alert decision for one accepted event: suspicious name
first (Foreground/Shown/Created only), else focus-without-click
(Foreground only, not allow-listed). -/
def workerAlert (e : WindowEvent) (pi : ProcessInfo) (recent_click : Bool) : Option Alert :=
  let dominated := dominated_event e.event_type
  let susp := is_suspicious_process pi.process_name
  let focus_without_click := decide (e.event_type = EventType.Foreground) && !recent_click
  if dominated && susp then
    some (.suspicious pi.process_name pi.process_path)
  else if focus_without_click && !(is_ignored pi) then
    some (.focusNoClick (pi.process_name ++ " (no click!)") pi.process_path)
  else
    none

/-- The LogEntry the worker builds for an accepted event. -/
def mkLogEntry (e : WindowEvent) (pi : ProcessInfo) : LogEntry :=
  { timestamp := e.timestamp
    event_type := e.event_type.as_str
    process_name := pi.process_name
    process_id := pi.process_id
    process_path := pi.process_path
    window_title := pi.window_title
    window_class := pi.window_class
    command_line := pi.command_line
    parent_process_name := pi.parent_process_name
    parent_process_id := pi.parent_process_id
    parent_process_path := pi.parent_process_path
    grandparent_process_name := pi.grandparent_process_name
    grandparent_process_id := pi.grandparent_process_id
    grandparent_process_path := pi.grandparent_process_path
    greatgrandparent_process_name := pi.greatgrandparent_process_name
    greatgrandparent_process_id := pi.greatgrandparent_process_id
    greatgrandparent_process_path := pi.greatgrandparent_process_path }

/-- One iteration of the worker loop body for a received event:
duplicates are dropped, accepted events are remembered, resolved
(via `resolve`, the abstracted get_process_info_cached), possibly
alerted on, and forwarded to queue B as a LogEntry. -/
def event_worker_step (resolve : Int → ProcessInfo) (recent_click : Bool)
    (s : List DedupEntry) (e : WindowEvent) :
    List DedupEntry × Option LogEntry × Option Alert :=
  if isDuplicate s e then
    (s, none, none)
  else
    let pi := resolve e.hwnd
    (pushEvent s e, some (mkLogEntry e pi), workerAlert e pi recent_click)

/-- The worker loop over a finite trace of received events (each paired
with the click-recency observation made while processing it). -/
def event_worker_run (resolve : Int → ProcessInfo) :
    List DedupEntry → List (WindowEvent × Bool) →
    List DedupEntry × List LogEntry × List Alert
  | s, [] => (s, [], [])
  | s, (e, rc) :: rest =>
    let st := event_worker_step resolve rc s e
    let r := event_worker_run resolve st.1 rest
    (r.1, st.2.1.toList ++ r.2.1, st.2.2.toList ++ r.2.2)

/-! ## Hook registration (event_hook.rs, set_hooks) -/

/-- Which OS registrations succeed in a run of set_hooks: the six
SetWinEventHook ranges plus the low-level mouse hook. -/
structure HookEnv where
  foregroundOk : Bool
  createOk : Bool
  showOk : Bool
  focusOk : Bool
  minimizeOk : Bool
  reorderOk : Bool
  mouseOk : Bool
deriving DecidableEq, Repr

/-- The six window event hook handles that set_hooks collects. -/
inductive WinHook where
  | foreground
  | create
  | shown
  | focus
  | minimize
  | reorder
deriving DecidableEq, Repr

/-- set_hooks from event_hook.rs: each successful SetWinEventHook pushes
its handle; the mouse hook result is stored separately (in
MOUSE_HOOK_PTR) and never pushed; the function bails out (None) exactly
when the collected vector is empty. -/
def set_hooks (env : HookEnv) : Option (List WinHook) :=
  let hooks :=
    (if env.foregroundOk then [WinHook.foreground] else []) ++
    (if env.createOk then [WinHook.create] else []) ++
    (if env.showOk then [WinHook.shown] else []) ++
    (if env.focusOk then [WinHook.focus] else []) ++
    (if env.minimizeOk then [WinHook.minimize] else []) ++
    (if env.reorderOk then [WinHook.reorder] else [])
  if hooks.isEmpty then none else some hooks

/-- Number of successful window event hook registrations. -/
def winHooksSucceeded (env : HookEnv) : Nat :=
  (if env.foregroundOk then 1 else 0) + (if env.createOk then 1 else 0) +
  (if env.showOk then 1 else 0) + (if env.focusOk then 1 else 0) +
  (if env.minimizeOk then 1 else 0) + (if env.reorderOk then 1 else 0)

/-- Number of successful notification subscriptions of all kinds,
counting the low-level pointer (mouse) hook as one of them (the spec's
enumeration in section 4.1 includes it). -/
def subscriptionsSucceeded (env : HookEnv) : Nat :=
  winHooksSucceeded env + (if env.mouseOk then 1 else 0)

/-! ## Process ancestry resolver (process_info.rs) -/

/-- Model of Rust Path::file_stem (restricted to ordinary Windows paths
without trailing separators): the final path component with the part
from its last dot onward removed, unless that dot is its first
character; None when the final component is empty. -/
def pathSeparator (c : Char) : Bool :=
  decide (c = '\\') || decide (c = '/')

/-- Characters of the final path component (the text after the last
separator). -/
def lastComponentChars (l : List Char) : List Char :=
  l.foldl (fun acc c => if pathSeparator c then [] else acc ++ [c]) []

/-- Strip the extension after the last dot (keeping dot-initial names
whole, as Rust's file_stem does). -/
def stemChars (name : List Char) : List Char :=
  let rev := name.reverse
  let fromDot := rev.dropWhile fun c => !decide (c = '.')
  match fromDot with
  | [] => name
  | _ :: rest => if rest.isEmpty then name else rest.reverse

/-- file_stem of a path as used throughout process_info.rs
(`Path::new(path).file_stem().and_then(to_str)`). -/
def file_stem (path : String) : Option String :=
  let name := lastComponentChars path.data
  if name.isEmpty then none else some (String.mk (stemChars name))

/-- The OS facilities process_info.rs consumes, abstracted as pure
functions: window-to-pid lookup, window title/class reads, the two
tiered OpenProcess requests, the image-path query on an opened handle,
and the two Toolhelp snapshot lookups (parent pid, process name). -/
structure OS where
  windowPid : Int → Nat
  windowTitle : Int → String
  windowClass : Int → String
  openFullOk : Nat → Bool
  openQueryOk : Nat → Bool
  procPath : Nat → String
  parentPid : Nat → Option Nat
  snapshotName : Nat → Option String

/-- get_parent_process_info from process_info.rs: snapshot parent-pid
lookup, then open-and-resolve with per-level fallback to the snapshot
name (path marked "Access denied") or full sentinels. -/
def get_parent_process_info (os : OS) (process_id : Nat) : String × Nat × String :=
  match os.parentPid process_id with
  | some parent_id =>
    if parent_id = 0 then
      ("System", 0, "")
    else if os.openFullOk parent_id then
      let path := os.procPath parent_id
      ((file_stem path).getD "Unknown", parent_id, path)
    else
      match os.snapshotName parent_id with
      | some name => (name, parent_id, "Access denied")
      | none => ("Access denied", parent_id, "")
  | none => ("Unknown", 0, "")

/-- The three-level ancestry walk performed (identically) in both the
opened and the access-denied branches of get_process_info: level k+1 is
only computed when level k's pid is positive. -/
def ancestryOf (os : OS) (process_id : Nat) :
    (String × Nat × String) × (String × Nat × String) × (String × Nat × String) :=
  let p := get_parent_process_info os process_id
  if p.2.1 > 0 then
    let gp := get_parent_process_info os p.2.1
    if gp.2.1 > 0 then
      (p, gp, get_parent_process_info os gp.2.1)
    else
      (p, gp, ("", 0, ""))
  else
    (p, ("", 0, ""), ("", 0, ""))

/-- get_process_info from process_info.rs. -/
def get_process_info (os : OS) (hwnd : Int) : ProcessInfo :=
  let process_id := os.windowPid hwnd
  if process_id = 0 then
    { process_id := 0, process_name := "Unknown", process_path := "Unknown" }
  else
    let title := os.windowTitle hwnd
    let cls := os.windowClass hwnd
    let anc := ancestryOf os process_id
    let idFields : String × String :=
      if os.openFullOk process_id then
        let path := os.procPath process_id
        ((file_stem path).getD "Unknown", path)
      else if os.openQueryOk process_id then
        let path := os.procPath process_id
        if path = "" then
          ("Access denied", "Access denied (elevated privileges required)")
        else
          ((file_stem path).getD "Unknown", path)
      else
        ("Access denied", "Access denied (elevated privileges required)")
    { process_name := idFields.1
      process_id := process_id
      process_path := idFields.2
      window_title := title
      window_class := cls
      command_line := none
      parent_process_name := anc.1.1
      parent_process_id := anc.1.2.1
      parent_process_path := anc.1.2.2
      grandparent_process_name := anc.2.1.1
      grandparent_process_id := anc.2.1.2.1
      grandparent_process_path := anc.2.1.2.2
      greatgrandparent_process_name := anc.2.2.1
      greatgrandparent_process_id := anc.2.2.2.1
      greatgrandparent_process_path := anc.2.2.2.2 }

/-- Ancestry level 1 of a ProcessInfo as a (name, pid, path) triple. -/
def parentTriple (i : ProcessInfo) : String × Nat × String :=
  (i.parent_process_name, i.parent_process_id, i.parent_process_path)

/-- Ancestry level 2 of a ProcessInfo. -/
def gpTriple (i : ProcessInfo) : String × Nat × String :=
  (i.grandparent_process_name, i.grandparent_process_id, i.grandparent_process_path)

/-- Ancestry level 3 of a ProcessInfo. -/
def ggpTriple (i : ProcessInfo) : String × Nat × String :=
  (i.greatgrandparent_process_name, i.greatgrandparent_process_id, i.greatgrandparent_process_path)

/-- The ancestry carried by a ProcessInfo: exactly the three level
slots of the record, deeper ancestry having no representation. -/
def ancestryLevels (i : ProcessInfo) : List (String × Nat × String) :=
  [parentTriple i, gpTriple i, ggpTriple i]

/-- The identity fields of a ProcessInfo: everything except the
live-read window title and class. -/
def identityFields (i : ProcessInfo) :
    String × Nat × String × (String × Nat × String) ×
      (String × Nat × String) × (String × Nat × String) :=
  (i.process_name, i.process_id, i.process_path, parentTriple i, gpTriple i, ggpTriple i)

/-! ## Process info cache (process_info.rs) -/

/-- CACHE_TTL from process_info.rs, in milliseconds. -/
def CACHE_TTL_MS : Nat := 5000

/-- The pid-keyed cache: each entry is (pid, info, inserted-at ms). -/
abbrev ProcCache := List (Nat × ProcessInfo × Nat)

/-- HashMap::get on the cache. -/
def cacheLookup (c : ProcCache) (pid : Nat) : Option (ProcessInfo × Nat) :=
  match c.find? (fun e => decide (e.1 = pid)) with
  | some e => some e.2
  | none => none

/-- HashMap::insert followed by the opportunistic sweep (retain entries
younger than the TTL) once more than 100 entries are held. -/
def cacheInsert (c : ProcCache) (pid : Nat) (info : ProcessInfo) (now : Nat) : ProcCache :=
  let c' := (pid, info, now) :: c.filter (fun e => !decide (e.1 = pid))
  if c'.length > 100 then
    c'.filter (fun e => decide (now - e.2.2 < CACHE_TTL_MS))
  else
    c'

/-- get_process_info_cached from process_info.rs: serve a fresh cache
hit with the window title and class re-read live; otherwise resolve in
full and insert. -/
def get_process_info_cached (os : OS) (c : ProcCache) (now : Nat) (hwnd : Int) :
    ProcessInfo × ProcCache :=
  let pid := os.windowPid hwnd
  if pid = 0 then
    (get_process_info os hwnd, c)
  else
    match cacheLookup c pid with
    | some (info, ts) =>
      if now - ts < CACHE_TTL_MS then
        ({ info with
            window_title := os.windowTitle hwnd
            window_class := os.windowClass hwnd }, c)
      else
        let info := get_process_info os hwnd
        (info, cacheInsert c pid info now)
    | none =>
      let info := get_process_info os hwnd
      (info, cacheInsert c pid info now)

/-! ## Logging sink (logger.rs, log_worker) -/

/-- Operations log_worker performs on its buffered writer, in order. -/
inductive WriterOp where
  | writeHeader : WriterOp
  | writeEntry : Nat → WriterOp
  | writeFooter : Nat → WriterOp
  | flush : WriterOp
deriving DecidableEq, Repr

/-- Writer operations of the i-th loop iteration (0-based): write the
(i+1)-th entry, then flush when the running count is a multiple of 10. -/
def logStep (i : Nat) : List WriterOp :=
  if (i + 1) % 10 = 0 then
    [WriterOp.writeEntry (i + 1), WriterOp.flush]
  else
    [WriterOp.writeEntry (i + 1)]

/-- Writer operations of the first n loop iterations. -/
def loopOps : Nat → List WriterOp
  | 0 => []
  | n + 1 => loopOps n ++ logStep n

/-- The full writer trace of a log_worker run that receives n entries:
header (flushed), the receive loop, then the footer carrying the total
entry count followed by the final flush. -/
def log_worker_trace (n : Nat) : List WriterOp :=
  ([WriterOp.writeHeader, WriterOp.flush] ++ loopOps n) ++
    [WriterOp.writeFooter n, WriterOp.flush]

/-- Fold step counting entry writes since the last flush. -/
def unflushedAfter (acc : Nat) : WriterOp → Nat
  | .flush => 0
  | .writeEntry _ => acc + 1
  | _ => acc

/-- Number of written entries not yet flushed after a sequence of
writer operations. -/
def unflushedEntries (ops : List WriterOp) : Nat :=
  ops.foldl unflushedAfter 0

/-! ## Concrete environments used to instantiate the theorems -/

/-- A default (empty) ProcessInfo, as produced for an unresolvable
process with no allow-listed name or class. -/
def piPlain : ProcessInfo := {}

/-- A ProcessInfo whose resolved name is the command shell. -/
def piCmd : ProcessInfo := { process_name := "cmd" }

/-- A Foreground window event. -/
def evFg : WindowEvent := ⟨EventType.Foreground, 1, 0⟩

/-- A resolver answering every window with the empty ProcessInfo. -/
def resolvePlain : Int → ProcessInfo := fun _ => {}

/-- Hook environment where only the mouse hook registers. -/
def envMouseOnly : HookEnv := ⟨false, false, false, false, false, false, true⟩

/-- Hook environment where nothing registers. -/
def envAllFail : HookEnv := ⟨false, false, false, false, false, false, false⟩

/-- An OS in which process 7 owns every window, opens fine, and has no
discoverable parent. -/
def osParentless : OS :=
  { windowPid := fun _ => 7
    windowTitle := fun _ => "t"
    windowClass := fun _ => "c"
    openFullOk := fun _ => true
    openQueryOk := fun _ => true
    procPath := fun _ => "C:\\tools\\app.exe"
    parentPid := fun _ => none
    snapshotName := fun _ => none }

/-- An OS in which process 9 owns every window, every open is denied,
and the snapshot knows 9's parent 4 by name. -/
def osDeniedEx : OS :=
  { windowPid := fun _ => 9
    windowTitle := fun _ => ""
    windowClass := fun _ => ""
    openFullOk := fun _ => false
    openQueryOk := fun _ => false
    procPath := fun _ => ""
    parentPid := fun pid => if pid = 9 then some 4 else none
    snapshotName := fun pid => if pid = 4 then some "services" else none }

/-- An OS for the cache scenario: pid 3, resolvable, title "Title1". -/
def osCacheA : OS :=
  { windowPid := fun _ => 3
    windowTitle := fun _ => "Title1"
    windowClass := fun _ => "C1"
    openFullOk := fun _ => true
    openQueryOk := fun _ => true
    procPath := fun _ => "C:\\p\\tool.exe"
    parentPid := fun _ => none
    snapshotName := fun _ => none }

/-- The same OS a moment later, after the window title changed. -/
def osCacheB : OS := { osCacheA with windowTitle := fun _ => "Title2" }

/-! ## Theorems -/

/-- Claim C4: is_suspicious_process holds exactly when the lower-cased
name contains one of the eight fixed substrings; it accepts
"powershell.exe", "PowerShell" and "cmd", rejects "notepad"; and the
worker's suspicious-name alert only ever fires for events whose kind is
Foreground, Shown or Created (dominated_event). -/
theorem suspicious_name_heuristic :
    (∀ s : String, is_suspicious_process s = true ↔
      ∃ p ∈ SUSPICIOUS_PROCESSES, strContains (toLowercase s) p = true) ∧
    is_suspicious_process "powershell.exe" = true ∧
    is_suspicious_process "PowerShell" = true ∧
    is_suspicious_process "cmd" = true ∧
    is_suspicious_process "notepad" = false ∧
    (∀ (e : WindowEvent) (pi : ProcessInfo) (rc : Bool) (label path : String),
      workerAlert e pi rc = some (Alert.suspicious label path) →
      dominated_event e.event_type = true) := by
  refine ⟨?_, by decide, by decide, by decide, by decide, ?_⟩
  · intro s
    simp [is_suspicious_process, List.any_eq_true]
  · intro e pi rc label path halert
    by_cases h1 : (dominated_event e.event_type && is_suspicious_process pi.process_name) = true
    · exact ((Bool.and_eq_true _ _).mp h1).1
    · exfalso
      rw [Bool.not_eq_true] at h1
      simp only [workerAlert, h1, Bool.false_eq_true, if_false] at halert
      split_ifs at halert
      all_goals simp_all

/-- Claim C4 witness: the suspicious alert fired by a concrete
Foreground event for "cmd" implies the kind is alert-relevant, and
"cmd" matches one of the fixed substrings. -/
theorem suspicious_name_heuristic_witness :
    dominated_event evFg.event_type = true ∧
    (∃ p ∈ SUSPICIOUS_PROCESSES, strContains (toLowercase "cmd") p = true) :=
  ⟨suspicious_name_heuristic.2.2.2.2.2 evFg piCmd true "cmd" "" (by decide),
   (suspicious_name_heuristic.1 "cmd").mp (by decide)⟩

/-- Claim C10: every LogEntry built by the worker carries
EventType::as_str as its label; as_str maps both Foreground and Focus
to "FOCUS", and the remaining five kinds to five pairwise distinct
labels, none of which is "FOCUS". -/
theorem event_type_label_collision :
    (∀ (e : WindowEvent) (pi : ProcessInfo),
      (mkLogEntry e pi).event_type = e.event_type.as_str) ∧
    EventType.as_str EventType.Foreground = "FOCUS" ∧
    EventType.as_str EventType.Focus = "FOCUS" ∧
    [EventType.Created, EventType.Shown, EventType.Minimized,
      EventType.Restored, EventType.ZOrderChanged].map EventType.as_str =
      ["CREATED", "SHOWN", "MINIMIZED", "RESTORED", "Z-ORDER"] ∧
    (["CREATED", "SHOWN", "MINIMIZED", "RESTORED", "Z-ORDER"] : List String).Nodup ∧
    (["CREATED", "SHOWN", "MINIMIZED", "RESTORED", "Z-ORDER"] : List String).contains "FOCUS"
      = false :=
  ⟨fun _ _ => rfl, rfl, rfl, rfl, by decide, by decide⟩

/-- Claim C3: with the 500 ms recency window, a Foreground event whose
last recorded click is 100 ms old is not flagged, and one whose last
recorded click is 600 ms old raises the focus-without-click alert,
provided the suspicious-name heuristic did not fire and the process is
not allow-listed. -/
theorem focus_without_click_heuristic :
    CLICK_WINDOW_MS = 500 ∧
    (∀ (e : WindowEvent) (pi : ProcessInfo) (last : Nat),
      e.event_type = EventType.Foreground →
      is_suspicious_process pi.process_name = false →
      workerAlert e pi (was_recent_mouse_click last (last + 100)) = none) ∧
    (∀ (e : WindowEvent) (pi : ProcessInfo) (last : Nat),
      e.event_type = EventType.Foreground →
      is_suspicious_process pi.process_name = false →
      is_ignored pi = false →
      workerAlert e pi (was_recent_mouse_click last (last + 600)) =
        some (Alert.focusNoClick (pi.process_name ++ " (no click!)") pi.process_path)) := by
  refine ⟨rfl, ?_, ?_⟩
  · intro e pi last hF hsusp
    have hrc : was_recent_mouse_click last (last + 100) = true := by
      unfold was_recent_mouse_click CLICK_WINDOW_MS
      simp
    unfold workerAlert
    rw [hF, hsusp, hrc]
    simp [dominated_event]
  · intro e pi last hF hsusp hign
    have hrc : was_recent_mouse_click last (last + 600) = false := by
      unfold was_recent_mouse_click CLICK_WINDOW_MS
      simp
    unfold workerAlert
    rw [hF, hsusp, hrc, hign]
    simp [dominated_event]

/-- Claim C3 witness: the two click ages evaluated on a concrete
Foreground event and an unremarkable process. -/
theorem focus_without_click_witness :
    workerAlert evFg piPlain (was_recent_mouse_click 40 (40 + 100)) = none ∧
    workerAlert evFg piPlain (was_recent_mouse_click 40 (40 + 600)) =
      some (Alert.focusNoClick (piPlain.process_name ++ " (no click!)") piPlain.process_path) :=
  ⟨focus_without_click_heuristic.2.1 evFg piPlain 40 rfl (by decide),
   focus_without_click_heuristic.2.2 evFg piPlain 40 rfl (by decide) (by decide)⟩

/-- Claim C9: with the last-click timestamp still at its initial value 0
and the clock at least 500 ms past the epoch, was_recent_mouse_click is
false, so every accepted Foreground event resolving to a process that is
neither allow-listed nor suspicious-named is forwarded together with a
focus-without-click alert. -/
theorem no_click_ever_alerts :
    (∀ now : Nat, 500 ≤ now → was_recent_mouse_click 0 now = false) ∧
    (∀ (resolve : Int → ProcessInfo) (s : List DedupEntry) (e : WindowEvent) (now : Nat),
      500 ≤ now →
      e.event_type = EventType.Foreground →
      is_suspicious_process (resolve e.hwnd).process_name = false →
      is_ignored (resolve e.hwnd) = false →
      isDuplicate s e = false →
      event_worker_step resolve (was_recent_mouse_click 0 now) s e =
        (pushEvent s e, some (mkLogEntry e (resolve e.hwnd)),
          some (Alert.focusNoClick ((resolve e.hwnd).process_name ++ " (no click!)")
            (resolve e.hwnd).process_path))) := by
  have hwr : ∀ now : Nat, 500 ≤ now → was_recent_mouse_click 0 now = false := by
    intro now hnow
    unfold was_recent_mouse_click CLICK_WINDOW_MS
    simp
    omega
  refine ⟨hwr, ?_⟩
  intro resolve s e now hnow hF hsusp hign hdup
  unfold event_worker_step
  rw [hdup]
  simp only [Bool.false_eq_true, if_false]
  unfold workerAlert
  rw [hF, hsusp, hign, hwr now hnow]
  simp [dominated_event]

/-- Claim C9 witness: a concrete accepted Foreground event at 700 ms
with no click ever recorded. -/
theorem no_click_ever_alerts_witness :
    was_recent_mouse_click 0 700 = false ∧
    event_worker_step resolvePlain (was_recent_mouse_click 0 700) [] evFg =
      (pushEvent [] evFg, some (mkLogEntry evFg (resolvePlain evFg.hwnd)),
        some (Alert.focusNoClick ((resolvePlain evFg.hwnd).process_name ++ " (no click!)")
          (resolvePlain evFg.hwnd).process_path)) :=
  ⟨no_click_ever_alerts.1 700 (by decide),
   no_click_ever_alerts.2 resolvePlain [] evFg 700 (by decide) rfl (by decide) (by decide)
     (by decide)⟩

/-- The entry recorded for an accepted event survives the worker's
eviction of the oldest remembered event. -/
theorem mem_pushEvent (s : List DedupEntry) (e : WindowEvent) :
    (e.hwnd, e.event_type, e.timestamp) ∈ pushEvent s e := by
  unfold pushEvent
  by_cases hlen : (s ++ [(e.hwnd, e.event_type, e.timestamp)]).length > 10
  · rw [if_pos hlen]
    cases s with
    | nil => simp at hlen
    | cons a s' => simp
  · rw [if_neg hlen]
    simp

/-- Any remembered entry with the same handle and kind within 100 ms
makes the new event a duplicate. -/
theorem isDuplicate_of_mem {s : List DedupEntry} {e : WindowEvent} {t : Int}
    (hmem : (e.hwnd, e.event_type, t) ∈ s)
    (ht : (e.timestamp - t).natAbs < 100) :
    isDuplicate s e = true := by
  unfold isDuplicate
  rw [List.any_eq_true]
  exact ⟨(e.hwnd, e.event_type, t), hmem, by simp [ht]⟩

/-- Claim C1: processing two events with the same window handle and
kind, at most one is forwarded to queue B when their timestamps differ
by less than 100 ms (from any worker state), and both are forwarded
when they differ by at least 100 ms (with no other events intervening). -/
theorem dedup_two_events :
    (∀ (resolve : Int → ProcessInfo) (s : List DedupEntry) (rc1 rc2 : Bool)
        (h : Int) (k : EventType) (t1 t2 : Int),
      (t2 - t1).natAbs < 100 →
      ((event_worker_run resolve s
          [(⟨k, h, t1⟩, rc1), (⟨k, h, t2⟩, rc2)]).2.1).length ≤ 1) ∧
    (∀ (resolve : Int → ProcessInfo) (rc1 rc2 : Bool)
        (h : Int) (k : EventType) (t1 t2 : Int),
      100 ≤ (t2 - t1).natAbs →
      ((event_worker_run resolve []
          [(⟨k, h, t1⟩, rc1), (⟨k, h, t2⟩, rc2)]).2.1).length = 2) := by
  constructor
  · intro resolve s rc1 rc2 h k t1 t2 hlt
    by_cases hd1 : isDuplicate s ⟨k, h, t1⟩ = true
    · by_cases hd2 : isDuplicate s ⟨k, h, t2⟩ = true
      · simp [event_worker_run, event_worker_step, hd1, hd2]
      · rw [Bool.not_eq_true] at hd2
        simp [event_worker_run, event_worker_step, hd1, hd2]
    · rw [Bool.not_eq_true] at hd1
      have hd2 : isDuplicate (pushEvent s ⟨k, h, t1⟩) ⟨k, h, t2⟩ = true :=
        isDuplicate_of_mem (mem_pushEvent s ⟨k, h, t1⟩) hlt
      simp [event_worker_run, event_worker_step, hd1, hd2]
  · intro resolve rc1 rc2 h k t1 t2 hge
    have hd1 : isDuplicate [] (⟨k, h, t1⟩ : WindowEvent) = false := rfl
    have hd2 : isDuplicate (pushEvent [] ⟨k, h, t1⟩) ⟨k, h, t2⟩ = false := by
      unfold pushEvent isDuplicate
      simp
      omega
    simp [event_worker_run, event_worker_step, hd1, hd2]

/-- Claim C1 witness: two Foreground events on handle 5, first 50 ms
apart (one forwarded), then 200 ms apart (two forwarded). -/
theorem dedup_two_events_witness :
    ((event_worker_run resolvePlain []
        [(⟨EventType.Foreground, 5, 1000⟩, false),
         (⟨EventType.Foreground, 5, 1050⟩, false)]).2.1).length ≤ 1 ∧
    ((event_worker_run resolvePlain []
        [(⟨EventType.Foreground, 5, 1000⟩, false),
         (⟨EventType.Foreground, 5, 1200⟩, false)]).2.1).length = 2 :=
  ⟨dedup_two_events.1 resolvePlain [] false false 5 EventType.Foreground 1000 1050 (by decide),
   dedup_two_events.2 resolvePlain false false 5 EventType.Foreground 1000 1200 (by decide)⟩

/-- Claim C6 counterexample: in the run where all six window event
hooks fail but the low-level mouse hook registers, one notification
subscription succeeded, yet set_hooks still fails fatally — refuting
"fails if and only if zero notification subscriptions succeed" when the
pointer hook is counted among the subscriptions, as the spec's
section 4.1 enumeration does. -/
theorem set_hooks_claim_counterexample :
    set_hooks envMouseOnly = none ∧ subscriptionsSucceeded envMouseOnly = 1 := by
  constructor <;> rfl

/-- Claim C6 (amended): set_hooks fails fatally if and only if zero of
the six window event subscriptions succeed; the mouse hook's outcome
never affects the result (its absence, in particular, is tolerated). -/
theorem set_hooks_fatal_iff :
    (∀ env : HookEnv, set_hooks env = none ↔ winHooksSucceeded env = 0) ∧
    (∀ (env : HookEnv) (b1 b2 : Bool),
      set_hooks { env with mouseOk := b1 } = set_hooks { env with mouseOk := b2 }) := by
  constructor
  · intro env
    rcases env with ⟨a, b, c, d, e, f, g⟩
    cases a <;> cases b <;> cases c <;> cases d <;> cases e <;> cases f <;> cases g <;> decide
  · intro env b1 b2
    rfl

/-- Claim C6 witness: the amended characterization evaluated on the
all-fail environment, plus mouse-hook irrelevance there. -/
theorem set_hooks_fatal_iff_witness :
    (set_hooks envAllFail = none ↔ winHooksSucceeded envAllFail = 0) ∧
    set_hooks { envAllFail with mouseOk := true } =
      set_hooks { envAllFail with mouseOk := false } :=
  ⟨set_hooks_fatal_iff.1 envAllFail, set_hooks_fatal_iff.2 envAllFail true false⟩

/-- After k completed receive-loop iterations, exactly k mod 10 written
entries are unflushed. -/
theorem unflushed_loop (k : Nat) :
    unflushedEntries ([WriterOp.writeHeader, WriterOp.flush] ++ loopOps k) = k % 10 := by
  induction k with
  | zero => rfl
  | succ k ih =>
    have hsplit : [WriterOp.writeHeader, WriterOp.flush] ++ loopOps (k + 1) =
        ([WriterOp.writeHeader, WriterOp.flush] ++ loopOps k) ++ logStep k := by
      simp [loopOps]
    unfold unflushedEntries at *
    rw [hsplit, List.foldl_append, ih]
    by_cases h : (k + 1) % 10 = 0
    · simp [logStep, h, unflushedAfter]
    · simp [logStep, h, unflushedAfter]
      omega

/-- Claim C8 counterexample: in a three-entry session the writer
operation immediately preceding the footer is the third entry write —
the stream-end flush happens after the footer is written, not before
it, so entries may reach the file only together with the footer. -/
theorem log_flush_claim_counterexample :
    log_worker_trace 3 =
      [WriterOp.writeHeader, WriterOp.flush, WriterOp.writeEntry 1, WriterOp.writeEntry 2,
        WriterOp.writeEntry 3, WriterOp.writeFooter 3, WriterOp.flush] ∧
    ((log_worker_trace 3).takeWhile fun op => !decide (op = WriterOp.writeFooter 3)).getLast? =
      some (WriterOp.writeEntry 3) := by
  constructor <;> rfl

/-- Claim C8 (amended): the sink flushes after every 10th received
entry and once more at stream end — after writing the footer that
carries the total entry count — so at every iteration boundary of the
receive loop at most 9 written entries are unflushed. -/
theorem log_flush_bound :
    (∀ n, log_worker_trace n =
      ([WriterOp.writeHeader, WriterOp.flush] ++ loopOps n) ++
        [WriterOp.writeFooter n, WriterOp.flush]) ∧
    (∀ i, (i + 1) % 10 = 0 → logStep i = [WriterOp.writeEntry (i + 1), WriterOp.flush]) ∧
    (∀ k, unflushedEntries ([WriterOp.writeHeader, WriterOp.flush] ++ loopOps k) = k % 10) ∧
    (∀ k, unflushedEntries ([WriterOp.writeHeader, WriterOp.flush] ++ loopOps k) ≤ 9) := by
  refine ⟨fun n => rfl, ?_, unflushed_loop, ?_⟩
  · intro i h
    unfold logStep
    rw [if_pos h]
  · intro k
    rw [unflushed_loop]
    omega

/-- Claim C8 witness: the 10th entry is followed by a flush, and after
13 entries exactly 3 are unflushed. -/
theorem log_flush_bound_witness :
    logStep 9 = [WriterOp.writeEntry 10, WriterOp.flush] ∧
    unflushedEntries ([WriterOp.writeHeader, WriterOp.flush] ++ loopOps 13) = 13 % 10 :=
  ⟨log_flush_bound.2.1 9 (by decide), log_flush_bound.2.2.1 13⟩

/-- In the ancestry walk, a level with pid 0 stops the walk: all later
levels stay at their defaults. -/
theorem ancestryOf_chain (os : OS) (pid : Nat) :
    ((ancestryOf os pid).1.2.1 = 0 →
      (ancestryOf os pid).2.1 = ("", 0, "") ∧ (ancestryOf os pid).2.2 = ("", 0, "")) ∧
    ((ancestryOf os pid).2.1.2.1 = 0 → (ancestryOf os pid).2.2 = ("", 0, "")) := by
  simp only [ancestryOf]
  by_cases hp : (get_parent_process_info os pid).2.1 > 0
  · rw [if_pos hp]
    by_cases hgp : (get_parent_process_info os (get_parent_process_info os pid).2.1).2.1 > 0
    · rw [if_pos hgp]
      dsimp only
      exact ⟨fun h0 => absurd h0 (by omega), fun h0 => absurd h0 (by omega)⟩
    · rw [if_neg hgp]
      dsimp only
      exact ⟨fun h0 => absurd h0 (by omega), fun _ => rfl⟩
  · rw [if_neg hp]
    dsimp only
    exact ⟨fun _ => ⟨rfl, rfl⟩, fun _ => rfl⟩

/-- Claim C2: every ProcessInfo returned by the resolver carries at most
3 ancestry levels, and whenever a level is absent or has pid 0, all
deeper levels are absent (left at their defaults). -/
theorem ancestry_bound :
    ∀ (os : OS) (hwnd : Int),
      (ancestryLevels (get_process_info os hwnd)).length ≤ 3 ∧
      ((get_process_info os hwnd).parent_process_id = 0 →
        gpTriple (get_process_info os hwnd) = ("", 0, "") ∧
        ggpTriple (get_process_info os hwnd) = ("", 0, "")) ∧
      ((get_process_info os hwnd).grandparent_process_id = 0 →
        ggpTriple (get_process_info os hwnd) = ("", 0, "")) := by
  intro os hwnd
  refine ⟨by simp [ancestryLevels], ?_, ?_⟩
  · simp only [get_process_info]
    by_cases h0 : os.windowPid hwnd = 0
    · simp only [if_pos h0]
      exact fun _ => ⟨rfl, rfl⟩
    · simp only [if_neg h0]
      intro hpid
      exact (ancestryOf_chain os (os.windowPid hwnd)).1 hpid
  · simp only [get_process_info]
    by_cases h0 : os.windowPid hwnd = 0
    · simp only [if_pos h0]
      exact fun _ => rfl
    · simp only [if_neg h0]
      intro hpid
      exact (ancestryOf_chain os (os.windowPid hwnd)).2 hpid

/-- Claim C2 witness: a resolvable process with no discoverable parent
has pid 0 at level 1 and defaults at levels 2 and 3. -/
theorem ancestry_bound_witness :
    gpTriple (get_process_info osParentless 1) = ("", 0, "") ∧
    ggpTriple (get_process_info osParentless 1) = ("", 0, "") :=
  (ancestry_bound osParentless 1).2.1 (by decide)

/-- Claim C7: when both process opens are denied, the resolver still
returns a ProcessInfo whose name is the "Access denied" sentinel and
whose path contains "Access denied", with the ancestry walk still
performed through the snapshot enumeration; and whenever an ancestor's
own open fails but the snapshot knows its name, that level degrades to
the snapshot name with an "Access denied" path. -/
theorem access_denied_degradation :
    (∀ (os : OS) (hwnd : Int),
      os.windowPid hwnd ≠ 0 →
      os.openFullOk (os.windowPid hwnd) = false →
      os.openQueryOk (os.windowPid hwnd) = false →
      (get_process_info os hwnd).process_name = "Access denied" ∧
      strContains (get_process_info os hwnd).process_path "Access denied" = true ∧
      parentTriple (get_process_info os hwnd) = (ancestryOf os (os.windowPid hwnd)).1 ∧
      gpTriple (get_process_info os hwnd) = (ancestryOf os (os.windowPid hwnd)).2.1 ∧
      ggpTriple (get_process_info os hwnd) = (ancestryOf os (os.windowPid hwnd)).2.2) ∧
    (∀ (os : OS) (child parent_id : Nat) (name : String),
      os.parentPid child = some parent_id →
      parent_id ≠ 0 →
      os.openFullOk parent_id = false →
      os.snapshotName parent_id = some name →
      get_parent_process_info os child = (name, parent_id, "Access denied")) := by
  constructor
  · intro os hwnd h0 hfull hquery
    simp only [get_process_info, if_neg h0, hfull, hquery, Bool.false_eq_true, if_false]
    refine ⟨?_, ?_, ?_, ?_, ?_⟩ <;> trivial
  · intro os child parent_id name hpp hne hopen hsnap
    simp only [get_parent_process_info, hpp, hopen, hsnap, Bool.false_eq_true, if_false]
    rw [if_neg hne]

/-- Claim C7 witness: process 9 with all opens denied and a snapshot
parent named "services". -/
theorem access_denied_witness :
    ((get_process_info osDeniedEx 2).process_name = "Access denied" ∧
      strContains (get_process_info osDeniedEx 2).process_path "Access denied" = true ∧
      parentTriple (get_process_info osDeniedEx 2) = (ancestryOf osDeniedEx (osDeniedEx.windowPid 2)).1 ∧
      gpTriple (get_process_info osDeniedEx 2) = (ancestryOf osDeniedEx (osDeniedEx.windowPid 2)).2.1 ∧
      ggpTriple (get_process_info osDeniedEx 2) = (ancestryOf osDeniedEx (osDeniedEx.windowPid 2)).2.2) ∧
    get_parent_process_info osDeniedEx 9 = ("services", 4, "Access denied") :=
  ⟨access_denied_degradation.1 osDeniedEx 2 (by decide) (by decide) (by decide),
   access_denied_degradation.2 osDeniedEx 9 4 "services" (by decide) (by decide) (by decide)
     (by decide)⟩

/-- A freshly inserted cache entry is found by the next lookup for its
pid, surviving the size-triggered sweep (its own age is 0). -/
theorem cacheLookup_cacheInsert (c : ProcCache) (pid : Nat) (i : ProcessInfo) (t : Nat) :
    cacheLookup (cacheInsert c pid i t) pid = some (i, t) := by
  unfold cacheInsert cacheLookup
  by_cases hlen : ((pid, i, t) :: c.filter (fun e => !decide (e.1 = pid))).length > 100
  · rw [if_pos hlen]
    simp [List.filter_cons, List.find?_cons, CACHE_TTL_MS]
  · rw [if_neg hlen]
    simp [List.find?_cons]

/-- Claim C5: two cached-resolver calls for the same nonzero pid within
the 5-second TTL return identical identity fields (name, pid, path,
ancestry) — the second call is served from the cache and leaves it
untouched — while window title and class are re-read live from the OS
on the second call. -/
theorem cache_freshness :
    ∀ (os1 os2 : OS) (c0 : ProcCache) (t1 t2 : Nat) (hw1 hw2 : Int),
      os1.windowPid hw1 ≠ 0 →
      os2.windowPid hw2 = os1.windowPid hw1 →
      cacheLookup c0 (os1.windowPid hw1) = none →
      t2 - t1 < CACHE_TTL_MS →
      identityFields
          (get_process_info_cached os2 (get_process_info_cached os1 c0 t1 hw1).2 t2 hw2).1 =
        identityFields (get_process_info_cached os1 c0 t1 hw1).1 ∧
      (get_process_info_cached os2 (get_process_info_cached os1 c0 t1 hw1).2 t2 hw2).1.window_title =
        os2.windowTitle hw2 ∧
      (get_process_info_cached os2 (get_process_info_cached os1 c0 t1 hw1).2 t2 hw2).1.window_class =
        os2.windowClass hw2 ∧
      (get_process_info_cached os2 (get_process_info_cached os1 c0 t1 hw1).2 t2 hw2).2 =
        (get_process_info_cached os1 c0 t1 hw1).2 := by
  intro os1 os2 c0 t1 t2 hw1 hw2 hpid hsame hmiss hfresh
  have h1 : get_process_info_cached os1 c0 t1 hw1 =
      (get_process_info os1 hw1,
        cacheInsert c0 (os1.windowPid hw1) (get_process_info os1 hw1) t1) := by
    simp only [get_process_info_cached, if_neg hpid, hmiss]
  have hpid2 : ¬ os2.windowPid hw2 = 0 := by
    rw [hsame]
    exact hpid
  have hlook : cacheLookup (cacheInsert c0 (os1.windowPid hw1) (get_process_info os1 hw1) t1)
      (os2.windowPid hw2) = some (get_process_info os1 hw1, t1) := by
    rw [hsame]
    exact cacheLookup_cacheInsert c0 (os1.windowPid hw1) (get_process_info os1 hw1) t1
  have h2 : get_process_info_cached os2
        (cacheInsert c0 (os1.windowPid hw1) (get_process_info os1 hw1) t1) t2 hw2 =
      ({ get_process_info os1 hw1 with
          window_title := os2.windowTitle hw2
          window_class := os2.windowClass hw2 },
        cacheInsert c0 (os1.windowPid hw1) (get_process_info os1 hw1) t1) := by
    simp only [get_process_info_cached, if_neg hpid2, hlook, if_pos hfresh]
  rw [h1]
  dsimp only
  rw [h2]
  exact ⟨rfl, rfl, rfl, rfl⟩

/-- Claim C5 witness: pid 3 resolved at 0 ms and re-queried at 4000 ms
after its window title changed from "Title1" to "Title2". -/
theorem cache_freshness_witness :
    identityFields (get_process_info_cached osCacheB (get_process_info_cached osCacheA [] 0 1).2 4000 1).1 =
      identityFields (get_process_info_cached osCacheA [] 0 1).1 ∧
    (get_process_info_cached osCacheB (get_process_info_cached osCacheA [] 0 1).2 4000 1).1.window_title =
      osCacheB.windowTitle 1 ∧
    (get_process_info_cached osCacheB (get_process_info_cached osCacheA [] 0 1).2 4000 1).1.window_class =
      osCacheB.windowClass 1 ∧
    (get_process_info_cached osCacheB (get_process_info_cached osCacheA [] 0 1).2 4000 1).2 =
      (get_process_info_cached osCacheA [] 0 1).2 :=
  cache_freshness osCacheA osCacheB [] 0 4000 1 1 (by decide) (by decide) (by decide) (by decide)

end PcWatcher
